import Mathlib

/-!
Shallow embedding of `nameko/dependencies.py`: the dependency-provider
declaration, instantiation and discovery subsystem.

Modelling conventions (Python 2 semantics, as the source is Python 2):
* Python object identity is modelled by an explicit `objId : Nat` field;
  `is` comparison and identity-based hashing compare these ids.  Provider
  classes are modelled by `Nat` identifiers (classes are unique objects, so
  `is` on classes is id equality).
* `DependencyFactory` defines `__eq__` but no `__hash__`, so (in Python 2)
  its hash stays the default id-based hash: `WeakSet` membership and
  `WeakKeyDictionary`/`set` keying are therefore by object identity.
* Constructor arguments are modelled as scalar `PyArg` values; tuples of
  positional args compare elementwise, keyword dicts compare unordered.
* `inspect.getmembers` returns `(name, value)` pairs for the members of an
  object, in sorted-name order, skipping members whose access raises
  `AttributeError`; we take each class's member list to be given already in
  that order (no claim compares member names, so the sort itself is not
  re-modelled), and mark raising members with an explicit `Attr.raising`
  marker which `getmembers` drops.  Ever-present hashable non-factory
  members (methods of the provider base class, the bound `name` and
  `container` attributes, ...) may be represented by `Attr.plain` entries.
* Generators are modelled by the list of their yields under full
  consumption, with the mutable interpreter state threaded explicitly and
  a raised exception modelled by `Except.error`.
* The unbounded recursion of nested-dependency discovery is given an
  explicit fuel; running out of fuel is the artificial error `DiscErr.fuel`.
-/

namespace Nameko

/-- Scalar Python values usable as constructor arguments of a factory. -/
inductive PyArg where
  | int (n : Int)
  | bool (b : Bool)
  | str (s : String)
deriving DecidableEq, Repr

/-- `DependencyFactory(dep_cls, *init_args, **init_kwargs)`.
`objId` is the Python object identity of the factory object itself;
`dep_cls` is the identity of the provider class it instantiates.
`shared` is the class attribute defaulting to `False`, reassigned by the
`dependency` declaration wrapper. -/
structure DependencyFactory where
  objId : Nat
  dep_cls : Nat
  args : List PyArg
  kwargs : List (String × PyArg)
  shared : Bool := false
deriving DecidableEq, Repr

/-- A Python function object that may serve as a service method.
`entrypoints` models its `nameko_entrypoints` attribute: `none` when the
attribute has never been set, `some l` once `register_entrypoint` created
the set (iteration order of the Python set is fixed here as list order). -/
structure Method where
  entrypoints : Option (List DependencyFactory) := none
deriving DecidableEq, Repr

/-- `set.add` on a set of `DependencyFactory`: hashing is id-based, so an
element is already present iff a member with the same `objId` is (the
source's TODO notes that structurally equal copies are NOT deduplicated). -/
def setAddFactory (l : List DependencyFactory) (f : DependencyFactory) :
    List DependencyFactory :=
  if l.any (fun g => g.objId == f.objId) then l else l ++ [f]

/-- `register_entrypoint(fn, provider)`: fetch the `nameko_entrypoints`
set of `fn`, creating it when absent, and add `provider` to it. -/
def register_entrypoint (fn : Method) (provider : DependencyFactory) : Method :=
  match fn.entrypoints with
  | none => { fn with entrypoints := some [provider] }
  | some descriptors => { fn with entrypoints := some (setAddFactory descriptors provider) }

/-- A bound provider instance (`dep_cls(*args, **kwargs)` after `bind`).
`objId` is the instance's Python identity; `name`/`container` are the
attributes set by `DependencyProvider.bind`. -/
structure Inst where
  objId : Nat
  dep_cls : Nat
  name : String
  container : Nat
deriving DecidableEq, Repr

/-- `DependencyProvider.bind(self, name, container)`. -/
def bindProvider (self : Inst) (name : String) (container : Nat) : Inst :=
  { self with name := name, container := container }

/-- Mutable interpreter state relevant to instantiation: the allocator of
fresh object identities and the module-level `shared_dependencies`
`WeakKeyDictionary`, keyed by factory identity (id-based hash). -/
structure DepState where
  nextId : Nat
  sharedCache : List (Nat × Inst)
deriving DecidableEq, Repr

/-- `DependencyFactory.create_and_bind_instance(self, name, container)`:
if `self.shared`, look the factory up in `shared_dependencies` and fall
back to a fresh `dep_cls(*args, **kwargs)` when absent; otherwise always
construct a fresh instance; then `bind(name, container)` and return it.
Note, faithful to the source: the freshly created instance is *never*
stored into `shared_dependencies` (the dictionary is only ever read), and
a cache hit is re-`bind`-ed in place (same object, mutated fields). -/
def create_and_bind_instance (self : DependencyFactory) (name : String)
    (container : Nat) (s : DepState) : Inst × DepState :=
  if self.shared then
    match s.sharedCache.lookup self.objId with
    | some instHit =>
        let bound := bindProvider instHit name container
        (bound,
         { s with sharedCache :=
            s.sharedCache.map (fun p => if p.1 == self.objId then (p.1, bound) else p) })
    | none =>
        let fresh : Inst := ⟨s.nextId, self.dep_cls, "", 0⟩
        (bindProvider fresh name container, { s with nextId := s.nextId + 1 })
  else
    let fresh : Inst := ⟨s.nextId, self.dep_cls, "", 0⟩
    (bindProvider fresh name container, { s with nextId := s.nextId + 1 })

/-- A member value found on a service class or on a provider instance
during discovery.  `factory` and `method` carry their object; `plain`
stands for any other hashable value (argument: an arbitrary tag);
`unhashable` stands for a hashable-test-failing value such as a list;
`raising` stands for a member whose attribute access raises
`AttributeError` (skipped inside `inspect.getmembers`). -/
inductive Attr where
  | factory (f : DependencyFactory)
  | method (m : Method)
  | plain (v : Nat)
  | unhashable (v : Nat)
  | raising
deriving DecidableEq, Repr

/-- Does accessing this member raise (so that `getmembers` drops it)? -/
def attrRaises : Attr → Bool
  | Attr.raising => true
  | _ => false

/-- `isinstance(x, collections.Hashable)`. -/
def isHashable : Attr → Bool
  | Attr.unhashable _ => false
  | _ => true

/-- `inspect.ismethod(x)`. -/
def isMethod : Attr → Bool
  | Attr.method _ => true
  | _ => false

/-- `inspect.getmembers(obj, predicate)` over an object whose accessible
members are `attrs` (already in sorted-name order, see the header):
members raising on access are skipped, then the predicate filters. -/
def getmembers (attrs : List (String × Attr)) (pred : Attr → Bool) :
    List (String × Attr) :=
  attrs.filter (fun p => !attrRaises p.2 && pred p.2)

/-- The static world a discovery run sees: the members of the service
class, the members an instance of each provider class exposes, and the
module-level `registered_dependencies` / `registered_injections`
`WeakSet`s (hashing is id-based, so they are sets of factory `objId`s). -/
structure World where
  serviceAttrs : List (String × Attr)
  classAttrs : Nat → List (String × Attr)
  registered_dependencies : List Nat
  registered_injections : List Nat

/-- Discovery failure: `typeError` models the `TypeError` raised when an
unhashable attribute is hashed by a `WeakSet` membership test; `fuel`
is the artificial recursion bound of this embedding running out. -/
inductive DiscErr where
  | typeError
  | fuel
deriving DecidableEq, Repr

/-- Members of a bound provider instance that pass the
`isinstance(x, collections.Hashable)` predicate of the nested-dependency
scan (the instance's members are those of its class, see the header). -/
def hashableMembers (w : World) (inst : Inst) : List (String × Attr) :=
  getmembers (w.classAttrs inst.dep_cls) isHashable

/-- The inner generator `get_dependencies(obj)` of
`get_dependency_providers`, applied to the (already filtered) member list
of `obj`: for each member equal to a registered dependency factory,
create-and-bind an instance under the member's name, yield the instance's
own nested dependencies first (recursively), then yield the instance.
Fuel decreases at every step; `fuel = 0` means the bound ran out. -/
def depScan (w : World) (container : Nat) :
    Nat → List (String × Attr) → DepState → Except DiscErr (List Inst × DepState)
  | 0, _, _ => Except.error DiscErr.fuel
  | _ + 1, [], s => Except.ok ([], s)
  | fuel + 1, (name, attr) :: rest, s =>
    match attr with
    | Attr.factory f =>
      if w.registered_dependencies.contains f.objId then
        let created := create_and_bind_instance f name container s
        match depScan w container fuel (hashableMembers w created.1) created.2 with
        | Except.error e => Except.error e
        | Except.ok (nested, s2) =>
          match depScan w container fuel rest s2 with
          | Except.error e => Except.error e
          | Except.ok (tail, s3) => Except.ok (nested ++ created.1 :: tail, s3)
      else depScan w container fuel rest s
    | _ => depScan w container fuel rest s

/-- `get_dependency_providers(container, provider)`: yield the nested
dependency providers discovered on the attributes of the already-bound
`provider` instance (the provider itself is not yielded). -/
def get_dependency_providers (w : World) (container : Nat) (provider : Inst)
    (fuel : Nat) (s : DepState) : Except DiscErr (List Inst × DepState) :=
  depScan w container fuel (hashableMembers w provider) s

/-- The body of `get_injection_providers` looping over
`inspect.getmembers(service_cls)` (no predicate, so unhashable members are
present in the list): `attr in registered_injections` hashes `attr`,
raising `TypeError` on an unhashable value; a member equal to a registered
injection factory is created-and-bound under the member's name and
yielded, followed (when `include_dependencies`) by its nested dependency
providers. -/
def injScan (w : World) (container : Nat) (include_dependencies : Bool)
    (fuel : Nat) :
    List (String × Attr) → DepState → Except DiscErr (List Inst × DepState)
  | [], s => Except.ok ([], s)
  | (name, attr) :: rest, s =>
    match attr with
    | Attr.unhashable _ => Except.error DiscErr.typeError
    | Attr.factory f =>
      if w.registered_injections.contains f.objId then
        let created := create_and_bind_instance f name container s
        match (if include_dependencies then
                 get_dependency_providers w container created.1 fuel created.2
               else Except.ok ([], created.2)) with
        | Except.error e => Except.error e
        | Except.ok (deps, s2) =>
          match injScan w container include_dependencies fuel rest s2 with
          | Except.error e => Except.error e
          | Except.ok (tail, s3) => Except.ok (created.1 :: deps ++ tail, s3)
      else injScan w container include_dependencies fuel rest s
    | _ => injScan w container include_dependencies fuel rest s

/-- `get_injection_providers(container, include_dependencies)`. -/
def get_injection_providers (w : World) (container : Nat)
    (include_dependencies : Bool) (fuel : Nat) (s : DepState) :
    Except DiscErr (List Inst × DepState) :=
  injScan w container include_dependencies fuel
    (getmembers w.serviceAttrs (fun _ => true)) s

/-- The inner loop of `get_entrypoint_providers` over the factory set
attached to one method (`getattr(attr, ENTRYPOINT_PROVIDERS_ATTR, [])`):
each factory is created-and-bound under the method's name and yielded,
followed (when `include_dependencies`) by its nested dependencies. -/
def entryFactoryScan (w : World) (container : Nat)
    (include_dependencies : Bool) (fuel : Nat) (name : String) :
    List DependencyFactory → DepState → Except DiscErr (List Inst × DepState)
  | [], s => Except.ok ([], s)
  | f :: fs, s =>
    let created := create_and_bind_instance f name container s
    match (if include_dependencies then
             get_dependency_providers w container created.1 fuel created.2
           else Except.ok ([], created.2)) with
    | Except.error e => Except.error e
    | Except.ok (deps, s2) =>
      match entryFactoryScan w container include_dependencies fuel name fs s2 with
      | Except.error e => Except.error e
      | Except.ok (tail, s3) => Except.ok (created.1 :: deps ++ tail, s3)

/-- The outer loop of `get_entrypoint_providers` over
`inspect.getmembers(service_cls, inspect.ismethod)`. -/
def entryScan (w : World) (container : Nat) (include_dependencies : Bool)
    (fuel : Nat) :
    List (String × Attr) → DepState → Except DiscErr (List Inst × DepState)
  | [], s => Except.ok ([], s)
  | (name, attr) :: rest, s =>
    let factories := match attr with
      | Attr.method m => m.entrypoints.getD []
      | _ => []
    match entryFactoryScan w container include_dependencies fuel name factories s with
    | Except.error e => Except.error e
    | Except.ok (here, s2) =>
      match entryScan w container include_dependencies fuel rest s2 with
      | Except.error e => Except.error e
      | Except.ok (tail, s3) => Except.ok (here ++ tail, s3)

/-- `get_entrypoint_providers(container, include_dependencies)`. -/
def get_entrypoint_providers (w : World) (container : Nat)
    (include_dependencies : Bool) (fuel : Nat) (s : DepState) :
    Except DiscErr (List Inst × DepState) :=
  entryScan w container include_dependencies fuel
    (getmembers w.serviceAttrs isMethod) s

/-- `get_dependencies(container)`:
`chain(get_injection_providers(container, include_dependencies=True),
get_entrypoint_providers(container, include_dependencies=True))`, fully
consumed: the injection generator runs first, the entrypoint generator
continues from the state it left. -/
def get_dependencies (w : World) (container : Nat) (fuel : Nat)
    (s : DepState) : Except DiscErr (List Inst × DepState) :=
  match get_injection_providers w container true fuel s with
  | Except.error e => Except.error e
  | Except.ok (injections, s1) =>
    match get_entrypoint_providers w container true fuel s1 with
    | Except.error e => Except.error e
    | Except.ok (entrypoints, s2) => Except.ok (injections ++ entrypoints, s2)

/-- A Python value as seen by the declaration wrappers: a
`DependencyFactory`, a plain function object, or some non-factory value. -/
inductive PyVal where
  | factory (f : DependencyFactory)
  | func (m : Method)
  | int (n : Int)
  | bool (b : Bool)
  | str (s : String)
deriving DecidableEq, Repr

/-- `isinstance(v, DependencyFactory)`. -/
def isFactoryVal : PyVal → Bool
  | PyVal.factory _ => true
  | _ => false

/-- Python truthiness of the values above (objects are truthy). -/
def pyTruthy : PyVal → Bool
  | PyVal.factory _ => true
  | PyVal.func _ => true
  | PyVal.int n => decide (n ≠ 0)
  | PyVal.bool b => b
  | PyVal.str s => decide (s ≠ "")

/-- The module-level declaration registries (`WeakSet`s of factories,
id-keyed: we record the member factories' `objId`s). -/
structure Registries where
  dependencies : List Nat
  injections : List Nat
deriving DecidableEq, Repr

/-- `WeakSet.add` of a factory, id-based hashing. -/
def weakSetAdd (reg : List Nat) (objId : Nat) : List Nat :=
  if reg.contains objId then reg else reg ++ [objId]

/-- `register_dependency(factory)`. -/
def register_dependency (regs : Registries) (factory : DependencyFactory) :
    Registries :=
  { regs with dependencies := weakSetAdd regs.dependencies factory.objId }

/-- `register_injection(factory)`. -/
def register_injection (regs : Registries) (factory : DependencyFactory) :
    Registries :=
  { regs with injections := weakSetAdd regs.injections factory.objId }

/-- A user-supplied factory-producing function `fn(*args, **kwargs)`. -/
def FactoryFn : Type := List PyVal → List (String × PyVal) → PyVal

/-- The `wrapped` closure produced by `injection(fn)`, called with
`(*args, **kwargs)`: compute `fn(*args, **kwargs)`, raise
`DependencyTypeError` when the result is not a `DependencyFactory`,
otherwise `register_injection(factory)` and return the factory.  The
second component is the registry state after the call (unchanged when the
call raised). -/
def injection_wrapped (fn : FactoryFn) (args : List PyVal)
    (kwargs : List (String × PyVal)) (regs : Registries) :
    Except Unit DependencyFactory × Registries :=
  match fn args kwargs with
  | PyVal.factory f => (Except.ok f, register_injection regs f)
  | _ => (Except.error (), regs)

/-- `kwargs.pop('shared', False)`: the looked-up value (default `False`)
and the dict without the `shared` key. -/
def popShared (kwargs : List (String × PyVal)) :
    PyVal × List (String × PyVal) :=
  ((kwargs.lookup "shared").getD (PyVal.bool false),
   kwargs.eraseP (fun p => p.1 == "shared"))

/-- The `wrapped` closure produced by `dependency(fn)`: pop the `shared`
keyword, compute `fn(*args, **kwargs)`, raise unless the result is a
`DependencyFactory`, otherwise set `factory.shared`, register it in the
dependency registry and return it. -/
def dependency_wrapped (fn : FactoryFn) (args : List PyVal)
    (kwargs : List (String × PyVal)) (regs : Registries) :
    Except Unit DependencyFactory × Registries :=
  let shared := (popShared kwargs).1
  match fn args (popShared kwargs).2 with
  | PyVal.factory f =>
      let f2 := { f with shared := pyTruthy shared }
      (Except.ok f2, register_dependency regs f2)
  | _ => (Except.error (), regs)

/-- `registering_decorator(fn, args, kwargs)` inside `entrypoint`:
compute `decorator_func(*args, **kwargs)`, raise `DependencyTypeError`
unless it is a `DependencyFactory`, otherwise `register_entrypoint(fn,
factory)` and return `fn`.  The first component is the returned decorated
function (or the raise), the second the state of the method object after
the call (mutated only on success). -/
def registering_decorator (decorator_func : FactoryFn) (fn : Method)
    (args : List PyVal) (kwargs : List (String × PyVal)) :
    Except Unit Method × Method :=
  match decorator_func args kwargs with
  | PyVal.factory factory =>
      let fn2 := register_entrypoint fn factory
      (Except.ok fn2, fn2)
  | _ => (Except.error (), fn)

deriving instance DecidableEq for Except

/-- Result of calling the `wrapper` closure produced by
`entrypoint(decorator_func)`: either the bare-application path (the single
function argument was decorated on the spot) or the parameterized path
(a `functools` deferred application of `registering_decorator` with the
given arguments, to be applied to the method later). -/
inductive WrapperResult where
  | decorated (res : Except Unit Method × Method)
  | deferred (args : List PyVal) (kwargs : List (String × PyVal))
deriving DecidableEq, Repr

/-- The `wrapper(*args, **kwargs)` closure of `entrypoint(decorator_func)`:
when called with exactly one positional argument that is a function
(`len(args) == 1 and isinstance(args[0], types.FunctionType)` — note the
keyword arguments are not consulted by the test), immediately run
`registering_decorator(args[0], (), {})`; otherwise return the deferred
`registering_decorator` application carrying `args`/`kwargs`. -/
def entrypoint_wrapper (decorator_func : FactoryFn) (args : List PyVal)
    (kwargs : List (String × PyVal)) : WrapperResult :=
  match args with
  | [PyVal.func m] => WrapperResult.decorated (registering_decorator decorator_func m [] [])
  | _ => WrapperResult.deferred args kwargs

/-- Applying the deferred payload of the parameterized path to the
decorated method (the second decorator application `@foobar(...)  def
spam(): ...` performs). -/
def applyDeferred (decorator_func : FactoryFn) (r : WrapperResult)
    (m : Method) : Option (Except Unit Method × Method) :=
  match r with
  | WrapperResult.deferred args kwargs =>
      some (registering_decorator decorator_func m args kwargs)
  | WrapperResult.decorated _ => none

/-- `DependencyFactory.__eq__(self, other)` with a factory `other`:
`all([self.dep_cls is other.dep_cls, self.args == other.args,
self.kwargs == other.kwargs])`.  Keyword dicts compare unordered
(key-for-key), positional tuples elementwise. -/
def kwargsSubDict (xs ys : List (String × PyArg)) : Bool :=
  xs.all (fun p => ys.lookup p.1 == some p.2)

/-- Python `==` on two keyword dicts (assoc lists with distinct keys). -/
def kwargsEq (xs ys : List (String × PyArg)) : Bool :=
  kwargsSubDict xs ys && kwargsSubDict ys xs

/-- `DependencyFactory.__eq__(self, other)`: `False` unless `other` is a
`DependencyFactory`, else the structural comparison above. -/
def factoryDunderEq (self : DependencyFactory) (other : PyVal) : Bool :=
  match other with
  | PyVal.factory g =>
      self.dep_cls == g.dep_cls && self.args == g.args && kwargsEq self.kwargs g.kwargs
  | _ => false

/-- The per-call service instance a worker runs on: its instance
`__dict__`, mapping attribute names to (opaque, here `Nat`-tagged)
values.  `setattr` overwrites an existing entry in place or appends a new
one; `delattr` removes the entry or raises `AttributeError`. -/
structure Service where
  attrs : List (String × Nat)
deriving DecidableEq, Repr

/-- `setattr(service, name, value)`. -/
def pySetattr (s : Service) (name : String) (v : Nat) : Service :=
  if (s.attrs.lookup name).isSome then
    ⟨s.attrs.map (fun p => if p.1 == name then (p.1, v) else p)⟩
  else ⟨s.attrs ++ [(name, v)]⟩

/-- `delattr(service, name)`: raises `AttributeError` when the instance
dict has no such entry. -/
def pyDelattr (s : Service) (name : String) : Except Unit Service :=
  if (s.attrs.lookup name).isSome then
    Except.ok ⟨s.attrs.eraseP (fun p => p.1 == name)⟩
  else Except.error ()

/-- The worker context as this core sees it: it exposes `service`. -/
structure WorkerCtx where
  service : Service
deriving DecidableEq, Repr

/-- `InjectionProvider.inject(self, worker_ctx)` for a bound provider
whose `self.name` is `name` and whose abstract `acquire_injection` is
`acquire`: set the worker service's attribute `self.name` to
`acquire_injection(worker_ctx)`. -/
def inject (name : String) (acquire : WorkerCtx → Nat) (worker_ctx : WorkerCtx) :
    WorkerCtx :=
  let injection_value := acquire worker_ctx
  ⟨pySetattr worker_ctx.service name injection_value⟩

/-- `InjectionProvider.release(self, worker_ctx)`: delete the worker
service's attribute `self.name`. -/
def release (name : String) (worker_ctx : WorkerCtx) : Except Unit WorkerCtx :=
  match pyDelattr worker_ctx.service name with
  | Except.ok s => Except.ok ⟨s⟩
  | Except.error e => Except.error e

/-! Concrete fixtures used by the theorems below.  Provider classes are
identified by `Nat` ids (100, 101, ... ), factory objects by their
`objId`; attribute names that no claim constrains are left as universally
quantified `String`s in the theorems. -/

/-- A factory declared with `shared=True` (its provider class is 100). -/
def sharedFactoryC1 : DependencyFactory := ⟨1, 100, [], [], true⟩

/-- A non-shared factory (provider class 101). -/
def plainFactoryC1 : DependencyFactory := ⟨2, 101, [], [], false⟩

/-- A registered injection factory (provider class 102). -/
def injFactoryC2 : DependencyFactory := ⟨3, 102, [], [], false⟩

/-- A registered dependency factory (provider class 103). -/
def depFactoryC2 : DependencyFactory := ⟨4, 103, [], [], false⟩

/-- A service class carrying an unhashable attribute (sorted before the
well-behaved injection declaration `db`). -/
def worldC2bad : World where
  serviceAttrs := [("aaa", Attr.unhashable 0), ("db", Attr.factory injFactoryC2)]
  classAttrs := fun _ => []
  registered_dependencies := []
  registered_injections := [3]

/-- A service class with a raising attribute and an injection declaration
under name `ni`; the injection's provider class 102 itself carries a
raising member, an unhashable member, a registered dependency factory
under name `nd` and a plain member. -/
def worldC2ok (ni nd : String) : World where
  serviceAttrs := [("err", Attr.raising), (ni, Attr.factory injFactoryC2)]
  classAttrs := fun cls =>
    if cls == 102 then
      [("err2", Attr.raising), ("unh", Attr.unhashable 5),
       (nd, Attr.factory depFactoryC2), ("pad", Attr.plain 2)]
    else []
  registered_dependencies := [4]
  registered_injections := [3]

/-- Registered dependency factory `D1` (provider class 201). -/
def facD1 : DependencyFactory := ⟨5, 201, [], [], false⟩

/-- Registered dependency factory `D2` (provider class 202). -/
def facD2 : DependencyFactory := ⟨6, 202, [], [], false⟩

/-- The nested-dependency chain of claim C4: instances of provider class
200 (`P`) expose `D1`'s factory under `n1`, instances of `D1`'s class 201
expose `D2`'s factory under `n2`, `D2`'s class 202 exposes nothing. -/
def worldC4 (n1 n2 : String) : World where
  serviceAttrs := []
  classAttrs := fun cls =>
    if cls == 200 then [("pad", Attr.plain 7), (n1, Attr.factory facD1)]
    else if cls == 201 then [(n2, Attr.factory facD2), ("tail", Attr.plain 3)]
    else []
  registered_dependencies := [5, 6]
  registered_injections := []

/-- Registered injection factory of claim C5 (provider class 300). -/
def injFactoryC5 : DependencyFactory := ⟨7, 300, [], [], false⟩

/-- Entrypoint factory of claim C5 (provider class 301). -/
def entFactoryC5 : DependencyFactory := ⟨8, 301, [], [], false⟩

/-- A service class with exactly one injection declaration (name `ni`),
one method (name `nm`) carrying one entrypoint factory, and a plain
attribute; no nested dependencies anywhere. -/
def worldC5 (ni nm : String) : World where
  serviceAttrs :=
    [(ni, Attr.factory injFactoryC5),
     (nm, Attr.method ⟨some [entFactoryC5]⟩),
     ("misc", Attr.plain 1)]
  classAttrs := fun _ => []
  registered_dependencies := []
  registered_injections := [7]

/-- Registered injection factory of claim C6 (provider class 400). -/
def injFactoryC6 : DependencyFactory := ⟨9, 400, [], [], false⟩

/-- Entrypoint factory of claim C6 (provider class 401). -/
def entFactoryC6 : DependencyFactory := ⟨10, 401, [], [], false⟩

/-- Registered dependency factory of claim C6 (provider class 402). -/
def depFactoryC6 : DependencyFactory := ⟨11, 402, [], [], false⟩

/-- A service class with one injection declaration under attribute name
`n` and one method `nm` carrying one entrypoint factory; instances of the
host provider class 500 expose the dependency factory under `nd`. -/
def worldC6 (n nm nd : String) : World where
  serviceAttrs :=
    [(n, Attr.factory injFactoryC6),
     (nm, Attr.method ⟨some [entFactoryC6]⟩),
     ("pad", Attr.plain 0)]
  classAttrs := fun cls => if cls == 500 then [(nd, Attr.factory depFactoryC6)] else []
  registered_dependencies := [11]
  registered_injections := [9]

/-- Is the positional-argument list the bare-application shape the
`entrypoint` wrapper tests for (exactly one function argument)? -/
def isBareArgs : List PyVal → Bool
  | [PyVal.func _] => true
  | _ => false

/-- Factory returned by the concrete decorator functions of the C9/C10
witnesses (provider class 700). -/
def witFactory : DependencyFactory := ⟨21, 700, [], [], false⟩

/-- A concrete decorator function: always returns `witFactory`. -/
def witDf : FactoryFn := fun _ _ => PyVal.factory witFactory

/-- Two structurally equal factories differing in identity and `shared`. -/
def facW1 : DependencyFactory := ⟨31, 5, [PyArg.int 2], [("a", PyArg.str "x")], false⟩

/-- See `facW1`. -/
def facW2 : DependencyFactory := ⟨32, 5, [PyArg.int 2], [("a", PyArg.str "x")], true⟩

/-- Looking a key up behind a prefix that does not contain it. -/
theorem lookup_append_single (l : List (String × Nat)) (n : String) (v : Nat)
    (h : List.lookup n l = Option.none) :
    List.lookup n (l ++ [(n, v)]) = some v := by
  induction l with
  | nil => simp [List.lookup]
  | cons a l ih =>
    obtain ⟨a1, a2⟩ := a
    rw [List.cons_append]
    rw [List.lookup] at h ⊢
    cases hna : (n == a1) with
    | true => rw [hna] at h; exact Option.noConfusion h
    | false => rw [hna] at h; exact ih h

/-- Erasing the single appended entry restores the original list when the
original list contains no entry for the key. -/
theorem eraseP_append_single (l : List (String × Nat)) (n : String) (v : Nat)
    (h : List.lookup n l = Option.none) :
    (l ++ [(n, v)]).eraseP (fun p => p.1 == n) = l := by
  induction l with
  | nil => simp [List.eraseP]
  | cons a l ih =>
    obtain ⟨a1, a2⟩ := a
    rw [List.lookup] at h
    cases hna : (n == a1) with
    | true => rw [hna] at h; exact Option.noConfusion h
    | false =>
      rw [hna] at h
      have ha : (a1 == n) = false := by
        rw [beq_eq_false_iff_ne] at hna ⊢
        exact fun e => hna e.symm
      rw [List.cons_append, List.eraseP_cons]
      simp only [ha, cond_false]
      rw [ih h]

/-- Claim C1 (code bug): the spec requires a shared factory to hand out
one identity-equal instance for every request, but
`create_and_bind_instance` never stores the freshly created instance into
`shared_dependencies` (the cache is only ever read), so from the initial
empty cache two requests for a shared factory — under different names
and containers — produce two distinct fresh instances (distinct object
ids), the cache stays empty, and the shared factory behaves exactly like
a non-shared one. -/
theorem C1_shared_cache_never_populated (n1 n2 : String) (c1 c2 k : Nat) :
    (create_and_bind_instance sharedFactoryC1 n1 c1 ⟨k, []⟩).1 =
      ⟨k, 100, n1, c1⟩ ∧
    (create_and_bind_instance sharedFactoryC1 n2 c2
        (create_and_bind_instance sharedFactoryC1 n1 c1 ⟨k, []⟩).2).1 =
      ⟨k + 1, 100, n2, c2⟩ ∧
    (create_and_bind_instance sharedFactoryC1 n1 c1 ⟨k, []⟩).1.objId ≠
      (create_and_bind_instance sharedFactoryC1 n2 c2
        (create_and_bind_instance sharedFactoryC1 n1 c1 ⟨k, []⟩).2).1.objId ∧
    (create_and_bind_instance sharedFactoryC1 n2 c2
        (create_and_bind_instance sharedFactoryC1 n1 c1 ⟨k, []⟩).2).2.sharedCache = [] ∧
    (create_and_bind_instance plainFactoryC1 n1 c1 ⟨k, []⟩).1.objId ≠
      (create_and_bind_instance plainFactoryC1 n2 c2
        (create_and_bind_instance plainFactoryC1 n1 c1 ⟨k, []⟩).2).1.objId := by
  refine ⟨rfl, rfl, ?_, rfl, ?_⟩ <;>
    simp [create_and_bind_instance, sharedFactoryC1, plainFactoryC1, bindProvider]

/-- Claim C2, counterexample: an unhashable attribute on the service
class (here sorted before the well-behaved injection declaration `db`)
is not skipped by `get_injection_providers` — there is no hashability
filter there, so the `attr in registered_injections` membership test
hashes it and raises `TypeError`, aborting discovery: the provider for
`db` is never yielded. -/
theorem C2_unhashable_aborts_injection_discovery :
    get_injection_providers worldC2bad 0 true 9 ⟨0, []⟩ =
      Except.error DiscErr.typeError := rfl

/-- Claim C2, amended: attributes raising `AttributeError` on access are
skipped by `inspect.getmembers` everywhere, and the nested-dependency
scan of `get_dependency_providers` filters out unhashable attributes
(skipping them) because it passes the `isinstance(x, Hashable)`
predicate; `get_entrypoint_providers` inspects only methods, so an
unhashable class attribute does not disturb it.  Only
`get_injection_providers` lacks the filter (see the counterexample). -/
theorem C2_skipping_in_dependency_and_entrypoint_scans
    (ni nd : String) (c k : Nat) :
    get_injection_providers (worldC2ok ni nd) c true 9 ⟨k, []⟩ =
      Except.ok ([⟨k, 102, ni, c⟩, ⟨k + 1, 103, nd, c⟩], ⟨k + 1 + 1, []⟩) ∧
    get_dependency_providers (worldC2ok ni nd) c ⟨0, 102, "p", c⟩ 9 ⟨k, []⟩ =
      Except.ok ([⟨k, 103, nd, c⟩], ⟨k + 1, []⟩) ∧
    get_entrypoint_providers worldC2bad c true 9 ⟨k, []⟩ =
      Except.ok ([], ⟨k, []⟩) := by
  refine ⟨rfl, rfl, rfl⟩

/-- Claim C4: `get_dependency_providers` yields nested dependencies in
dependency-before-dependent order.  For a bound provider `P` (class 200)
whose attribute `n1` is registered dependency factory `D1`, where `D1`'s
instance exposes registered dependency factory `D2` under `n2`, the
yielded sequence is exactly `D2`'s bound provider followed by `D1`'s
bound provider — `P` itself is not yielded. -/
theorem C4_dependencies_before_dependents
    (n1 n2 np : String) (c cp j k : Nat) :
    get_dependency_providers (worldC4 n1 n2) c ⟨j, 200, np, cp⟩ 9 ⟨k, []⟩ =
      Except.ok ([⟨k + 1, 202, n2, c⟩, ⟨k, 201, n1, c⟩], ⟨k + 1 + 1, []⟩) := rfl

/-- Claim C5: `get_dependencies(container)` yields all injection
providers (with their nested dependencies) followed by all entrypoint
providers (with theirs); on a service class with exactly one registered
injection attribute `ni` and one method `nm` carrying one entrypoint
factory, neither with nested dependencies, it yields exactly those two
bound providers, the injection provider first. -/
theorem C5_injections_then_entrypoints (ni nm : String) (c k : Nat) :
    get_dependencies (worldC5 ni nm) c 9 ⟨k, []⟩ =
      Except.ok ([⟨k, 300, ni, c⟩, ⟨k + 1, 301, nm, c⟩], ⟨k + 1 + 1, []⟩) := rfl

/-- Claim C6: discovering a container whose service class holds exactly
one declared factory of provider type `T` yields exactly one bound
provider instance of `T`, whose `name` is the attribute name under which
the factory was found (`n` for the injection, the method name `nm` for
the entrypoint, the discovered attribute name `nd` for a nested
dependency) and whose `container` is the given container — for all three
declaration kinds. -/
theorem C6_bound_under_attribute_name (n nm nd np : String) (c j k : Nat) :
    get_injection_providers (worldC6 n nm nd) c true 9 ⟨k, []⟩ =
      Except.ok ([⟨k, 400, n, c⟩], ⟨k + 1, []⟩) ∧
    get_entrypoint_providers (worldC6 n nm nd) c true 9 ⟨k, []⟩ =
      Except.ok ([⟨k, 401, nm, c⟩], ⟨k + 1, []⟩) ∧
    get_dependency_providers (worldC6 n nm nd) c ⟨j, 500, np, c⟩ 9 ⟨k, []⟩ =
      Except.ok ([⟨k, 402, nd, c⟩], ⟨k + 1, []⟩) := by
  refine ⟨rfl, rfl, rfl⟩

/-- Claim C3: whenever the inner function of a `dependency`, `injection`
or `entrypoint` declaration wrapper returns something that is not a
`DependencyFactory`, the call raises `DependencyTypeError` immediately at
declaration time and the corresponding registry — and, for `entrypoint`,
the method's attached factory set — is left unchanged. -/
theorem C3_declaration_error_before_registration (fn : FactoryFn)
    (args : List PyVal) (kwargs : List (String × PyVal)) (regs : Registries)
    (m : Method)
    (hinj : isFactoryVal (fn args kwargs) = false)
    (hdep : isFactoryVal (fn args (popShared kwargs).2) = false) :
    injection_wrapped fn args kwargs regs = (Except.error (), regs) ∧
    dependency_wrapped fn args kwargs regs = (Except.error (), regs) ∧
    registering_decorator fn m args kwargs = (Except.error (), m) := by
  refine ⟨?_, ?_, ?_⟩
  · unfold injection_wrapped
    cases hv : fn args kwargs <;> simp_all [isFactoryVal]
  · unfold dependency_wrapped
    cases hv : fn args (popShared kwargs).2 <;> simp_all [isFactoryVal]
  · unfold registering_decorator
    cases hv : fn args kwargs <;> simp_all [isFactoryVal]

/-- Witness for C3 at a concrete non-factory-returning function. -/
theorem C3_witness :
    injection_wrapped (fun _ _ => PyVal.int 3) [] [("shared", PyVal.bool true)]
        ⟨[], []⟩ = (Except.error (), (⟨[], []⟩ : Registries)) ∧
    dependency_wrapped (fun _ _ => PyVal.int 3) [] [("shared", PyVal.bool true)]
        ⟨[], []⟩ = (Except.error (), (⟨[], []⟩ : Registries)) ∧
    registering_decorator (fun _ _ => PyVal.int 3) ⟨Option.none⟩ []
        [("shared", PyVal.bool true)] = (Except.error (), (⟨Option.none⟩ : Method)) :=
  C3_declaration_error_before_registration _ _ _ _ _ rfl rfl

/-- Claim C7, counterexample: a worker whose service instance already has
an instance attribute named `self.name` (here `db = 5`) is NOT left in
its pre-injection state by `inject` followed by `release`: `inject`
overwrites the attribute and `release` deletes it, so the original value
is lost. -/
theorem C7_preexisting_attribute_lost :
    inject "db" (fun _ => 9) ⟨⟨[("db", 5)]⟩⟩ = ⟨⟨[("db", 9)]⟩⟩ ∧
    release "db" (inject "db" (fun _ => 9) ⟨⟨[("db", 5)]⟩⟩) = Except.ok ⟨⟨[]⟩⟩ ∧
    release "db" (inject "db" (fun _ => 9) ⟨⟨[("db", 5)]⟩⟩) ≠
      Except.ok ⟨⟨[("db", 5)]⟩⟩ := by
  refine ⟨rfl, rfl, by decide⟩

/-- Claim C7, amended: `inject(worker_ctx)` sets the attribute named
`self.name` on `worker_ctx.service` to `acquire_injection(worker_ctx)`,
and — provided the service instance does not already carry an instance
attribute of that name — `inject` followed immediately by `release`
leaves the service in its exact pre-injection attribute state, with no
leaked attribute; a pre-existing same-named instance attribute is instead
overwritten by `inject` and deleted by `release` (see the
counterexample). -/
theorem C7_inject_release_roundtrip (name : String)
    (acquire : WorkerCtx → Nat) (wc : WorkerCtx)
    (h : wc.service.attrs.lookup name = Option.none) :
    (inject name acquire wc).service.attrs.lookup name = some (acquire wc) ∧
    release name (inject name acquire wc) = Except.ok wc := by
  obtain ⟨⟨l⟩⟩ := wc
  constructor
  · simp only [inject, pySetattr, h, Option.isSome_none, Bool.false_eq_true,
      if_false]
    exact lookup_append_single l name _ h
  · simp only [release, inject, pySetattr, pyDelattr, h, Option.isSome_none,
      Bool.false_eq_true, if_false]
    rw [lookup_append_single l name _ h]
    simp only [Option.isSome_some, if_true]
    rw [eraseP_append_single l name _ h]

/-- Witness for C7 at a concrete worker context without the attribute. -/
theorem C7_witness :
    (inject "db" (fun _ => 7) ⟨⟨[("other", 1)]⟩⟩).service.attrs.lookup "db" =
      some 7 ∧
    release "db" (inject "db" (fun _ => 7) ⟨⟨[("other", 1)]⟩⟩) =
      Except.ok ⟨⟨[("other", 1)]⟩⟩ :=
  C7_inject_release_roundtrip "db" (fun _ => 7) ⟨⟨[("other", 1)]⟩⟩ rfl

/-- Claim C8: `DependencyFactory.__eq__` is structural — two factories
compare equal iff they reference the identical provider class and equal
positional and keyword construction arguments (object identity and the
`shared` flag do not enter the comparison), and comparing a factory with
any non-`DependencyFactory` value yields `False`. -/
theorem C8_eq_is_structural (f g : DependencyFactory) (v : PyVal)
    (i : Nat) (b : Bool) (hv : isFactoryVal v = false) :
    (factoryDunderEq f (PyVal.factory g) = true ↔
      f.dep_cls = g.dep_cls ∧ f.args = g.args ∧
        kwargsEq f.kwargs g.kwargs = true) ∧
    factoryDunderEq f v = false ∧
    factoryDunderEq f (PyVal.factory { g with objId := i, shared := b }) =
      factoryDunderEq f (PyVal.factory g) := by
  refine ⟨?_, ?_, rfl⟩
  · simp [factoryDunderEq, Bool.and_eq_true, beq_iff_eq, and_assoc]
  · cases v <;> simp_all [factoryDunderEq, isFactoryVal]

/-- Witness for C8 at two structurally equal factories that differ in
object identity and `shared` flag, and a non-factory value. -/
theorem C8_witness :
    (factoryDunderEq facW1 (PyVal.factory facW2) = true ↔
      facW1.dep_cls = facW2.dep_cls ∧ facW1.args = facW2.args ∧
        kwargsEq facW1.kwargs facW2.kwargs = true) ∧
    factoryDunderEq facW1 (PyVal.int 0) = false ∧
    factoryDunderEq facW1 (PyVal.factory { facW2 with objId := 77, shared := false }) =
      factoryDunderEq facW1 (PyVal.factory facW2) :=
  C8_eq_is_structural facW1 facW2 (PyVal.int 0) 77 false rfl

/-- Claim C9: the bare form (`@entrypoint` applied directly to a
function: the inner function is invoked with zero arguments) and the
parameterized form (`@entrypoint(args...)`, then applied to the function)
produce equivalent registrations: both return the decorated function with
the factory produced by the inner function — on the respective forwarded
arguments — attached as its factory set. -/
theorem C9_bare_and_parameterized_equivalent (df : FactoryFn) (m : Method)
    (args : List PyVal) (kwargs : List (String × PyVal))
    (f0 f1 : DependencyFactory)
    (hm : m.entrypoints = Option.none)
    (hbare : df [] [] = PyVal.factory f0)
    (hparam : df args kwargs = PyVal.factory f1)
    (hshape : isBareArgs args = false) :
    entrypoint_wrapper df [PyVal.func m] [] =
      WrapperResult.decorated
        (Except.ok { m with entrypoints := some [f0] },
         { m with entrypoints := some [f0] }) ∧
    entrypoint_wrapper df args kwargs = WrapperResult.deferred args kwargs ∧
    applyDeferred df (entrypoint_wrapper df args kwargs) m =
      some (Except.ok { m with entrypoints := some [f1] },
            { m with entrypoints := some [f1] }) := by
  have h2 : entrypoint_wrapper df args kwargs = WrapperResult.deferred args kwargs := by
    cases args with
    | nil => rfl
    | cons a rest =>
      cases a <;> cases rest <;>
        first
          | rfl
          | simp [isBareArgs] at hshape
  refine ⟨?_, h2, ?_⟩
  · simp [entrypoint_wrapper, registering_decorator, hbare, register_entrypoint, hm]
  · rw [h2]
    simp [applyDeferred, registering_decorator, hparam, register_entrypoint, hm]

/-- Witness for C9 at a concrete decorator function, method and
non-function argument list. -/
theorem C9_witness :
    entrypoint_wrapper witDf [PyVal.func ⟨Option.none⟩] [] =
      WrapperResult.decorated
        (Except.ok ⟨some [witFactory]⟩, (⟨some [witFactory]⟩ : Method)) ∧
    entrypoint_wrapper witDf [PyVal.int 4] [] =
      WrapperResult.deferred [PyVal.int 4] [] ∧
    applyDeferred witDf (entrypoint_wrapper witDf [PyVal.int 4] []) ⟨Option.none⟩ =
      some (Except.ok ⟨some [witFactory]⟩, (⟨some [witFactory]⟩ : Method)) :=
  C9_bare_and_parameterized_equivalent witDf ⟨Option.none⟩ [PyVal.int 4] []
    witFactory witFactory rfl rfl rfl rfl

/-- Claim C10: calling an entrypoint-wrapped decorator with exactly one
positional argument that is a plain function and no keyword arguments
unconditionally takes the bare-application path: the inner factory
function is invoked with zero arguments and the passed function becomes
the decorated method — never the deferred parameterized application, so a
single function-valued positional argument cannot be forwarded to the
factory function. -/
theorem C10_single_function_argument_is_bare (df : FactoryFn) (m : Method)
    (f : DependencyFactory) (h : df [] [] = PyVal.factory f) :
    entrypoint_wrapper df [PyVal.func m] [] =
      WrapperResult.decorated
        (Except.ok (register_entrypoint m f), register_entrypoint m f) ∧
    entrypoint_wrapper df [PyVal.func m] [] ≠
      WrapperResult.deferred [PyVal.func m] [] := by
  constructor
  · simp [entrypoint_wrapper, registering_decorator, h]
  · simp [entrypoint_wrapper]

/-- Witness for C10 at a concrete decorator function and method. -/
theorem C10_witness :
    entrypoint_wrapper witDf [PyVal.func ⟨some []⟩] [] =
      WrapperResult.decorated
        (Except.ok (register_entrypoint ⟨some []⟩ witFactory),
         register_entrypoint ⟨some []⟩ witFactory) ∧
    entrypoint_wrapper witDf [PyVal.func ⟨some []⟩] [] ≠
      WrapperResult.deferred [PyVal.func ⟨some []⟩] [] :=
  C10_single_function_argument_is_bare witDf ⟨some []⟩ witFactory rfl

end Nameko
